import Mathlib

/-!
Verification of the turn/phase orchestration loop of the welfare-diplomacy
experiment scaffolding (`experiments/simulate_game.py` and
`experiments/prompter.py`), as a shallow embedding in Lean 4.

The external game engine (the `diplomacy` package), the model backends and
the telemetry sink are out of scope; they enter the embedding only through
their observable data (phase-type characters, phase years, legality sets,
agent responses, randomness oracles).
-/

namespace WelfareDiplomacy

/-! ## Python string helpers

`containsStr hay needle` models Python's `needle in hay` substring test.
`pyWords` models Python's `str.split()` with no argument: split on runs of
whitespace, discarding empty pieces. `pyLastTwo` models `s[-2:]`. -/

def containsStr (hay needle : String) : Bool :=
  decide (needle.toList <:+: hay.toList)

def pyWords (s : String) : List String :=
  (s.split (fun c => c.isWhitespace)).filter (fun w => !w.isEmpty)

def pyLastTwo (s : String) : String :=
  String.mk (s.toList.drop (s.toList.length - 2))

/-! ## Order validation (simulate_game.py lines 148-167)

The legality set `possible_orders` is a Python dict from location to the
list of legal order strings; embedded as an association list with unique
keys, queried by `List.lookup`.

The per-order classification in the loop body is partial: when the order
contains neither marker and splits into fewer than two words, `word[1]`
raises `IndexError`.  `none` models that crash. -/

def isNoOpMarker (order : String) : Bool :=
  containsStr order "WAIVE" || containsStr order "VOID"

def validateOrder (possible_orders : List (String × List String))
    (order : String) : Option Bool :=
  if isNoOpMarker order then
    some true
  else
    match (pyWords order)[1]? with
    | none => none
    | some location =>
      match possible_orders.lookup location with
      | none => some false
      | some acts => some (acts.contains order)

/-- The count `num_valid_orders` accumulated over a response's order list; `none` when
some order crashes the validator. -/
def numValidOrders (possible_orders : List (String × List String)) :
    List String → Option Nat
  | [] => some 0
  | o :: os => do
    let v ← validateOrder possible_orders o
    let n ← numValidOrders possible_orders os
    pure ((if v then 1 else 0) + n)

/-- The ratio `valid_order_ratio` for one response (simulate_game.py lines 164-167):
1.0 when no orders were proposed, else valid/total. -/
def validOrderRatio (possible_orders : List (String × List String))
    (orders : List String) : Option ℚ := do
  let nv ← numValidOrders possible_orders orders
  let n := orders.length
  pure (if n > 0 then (nv : ℚ) / (n : ℚ) else 1)

/-! ## Theorems: order validation -/

/-- Claim C1: Order validity is exactly the spec's definition: the validator
classifies a proposed action as valid (returns `some true`) iff the action
is a recognized no-op marker, or its target location (the second
whitespace-separated word) is a key of the legality set and the action
appears verbatim in that key's list. -/
theorem validity_iff_marker_or_verbatim
    (L : List (String × List String)) (a : String) :
    validateOrder L a = some true ↔
      (isNoOpMarker a = true ∨
        ∃ loc acts, (pyWords a)[1]? = some loc ∧
          L.lookup loc = some acts ∧ a ∈ acts) := by
  unfold validateOrder
  by_cases hm : isNoOpMarker a
  · simp [hm]
  · have hm' : isNoOpMarker a = false := by simpa using hm
    simp only [hm', Bool.false_eq_true, if_false, false_or]
    cases hw : (pyWords a)[1]? with
    | none => simp
    | some loc =>
      cases hl : L.lookup loc with
      | none => simp [hl]
      | some acts => simp [hl]

/-- Claim C9: The validator is not total in the action string: it crashes
(`IndexError` on `word[1]`, modelled as `none`) exactly on actions that
contain no no-op marker and have fewer than two whitespace-separated
words; it is total on markers and on actions with at least two words. -/
theorem validation_crash_iff_short
    (L : List (String × List String)) (a : String) :
    validateOrder L a = none ↔
      isNoOpMarker a = false ∧ (pyWords a).length < 2 := by
  unfold validateOrder
  by_cases hm : isNoOpMarker a
  · simp [hm]
  · have hm' : isNoOpMarker a = false := by simpa using hm
    simp only [hm', Bool.false_eq_true, if_false, true_and]
    cases hw : (pyWords a)[1]? with
    | none =>
      have hlen : (pyWords a).length ≤ 1 := List.getElem?_eq_none_iff.mp hw
      simp only [true_iff]
      omega
    | some loc =>
      have hlen : 1 < (pyWords a).length := by
        by_contra hcon
        have hnone : (pyWords a)[1]? = none :=
          List.getElem?_eq_none_iff.mpr (by omega)
        rw [hnone] at hw
        exact Option.noConfusion hw
      cases hl : L.lookup loc with
      | none => simp [hl]; omega
      | some acts => simp [hl]; omega

/-- Claim C8: A response with an empty list of proposed orders has validity
ratio exactly 1.0. -/
theorem empty_orders_ratio_one (L : List (String × List String)) :
    validOrderRatio L [] = some 1 := by
  simp [validOrderRatio, numValidOrders]

/-! ## Horizons and the orchestration loop (simulate_game.py lines 73-78, 198-202)

`simulation_max_years` selects the operational horizon when configured
(`early_stop_max_years > 0`), else the communicated horizon (`max_years`).
After each `game.process()` the loop force-finishes the game
(`game._finish([])`) when the new phase's year minus 1900 exceeds it.

The external engine is embedded as the sequence of phase years observed
right after each `game.process()` call; the list ends when the engine
reports the game done on its own.  `runPhases` returns the years of the
phases the loop actually completed. -/

def simulationMaxYears (early_stop_max_years max_years : Nat) : Nat :=
  if early_stop_max_years > 0 then early_stop_max_years else max_years

def runPhases (simulation_max_years : Nat) : List Int → List Int
  | [] => []
  | y :: ys =>
    y :: (if y - 1900 > (simulation_max_years : Int) then []
          else runPhases simulation_max_years ys)

lemma runPhases_eq_takeWhile (m : Nat) (ys : List Int) :
    runPhases m ys =
      ys.takeWhile (fun y => decide (y - 1900 ≤ (m : Int))) ++
        (ys.dropWhile (fun y => decide (y - 1900 ≤ (m : Int)))).take 1 := by
  induction ys with
  | nil => simp [runPhases]
  | cons y ys ih =>
    by_cases hy : y - 1900 ≤ (m : Int)
    · have hcond : ¬ y - 1900 > (m : Int) := not_lt.mpr hy
      have hy2 : y ≤ (m : Int) + 1900 := by omega
      simp [runPhases, hcond, hy2, ih]
    · have hcond : y - 1900 > (m : Int) := lt_of_not_ge hy
      have hy2 : ¬ y ≤ (m : Int) + 1900 := by omega
      simp [runPhases, hcond, hy2]

/-! ## Message round count (simulate_game.py line 95) and per-phase progress
(simulate_game.py lines 298-310)

Phase types are the engine's one-character tags: `'M'` (Movement), `'R'`
(Retreat), `'A'` (Adjustment). -/

def numOfMessageRounds (max_message_rounds : Nat) (phase_type : Char) : Nat :=
  if phase_type ≠ 'R' then max_message_rounds else 1

/-- The round indices the controller's `for message_round in range(...)`
loop iterates over. -/
def messageRoundIndices (max_message_rounds : Nat) (phase_type : Char) :
    List Nat :=
  List.range (numOfMessageRounds max_message_rounds phase_type)

/-- Progress-bar increment after one phase advance; `none` models the
`ValueError` raised on an unknown phase type. -/
def progressUpdate (phase_type : Char) : Option Nat :=
  if phase_type = 'M' then some 1
  else if phase_type = 'A' then some 1
  else if phase_type = 'R' then some 0
  else none

/-- Total progress accumulated across a sequence of phase advances;
`none` as soon as some advance observes an unknown phase type. -/
def progressTotal : List Char → Option Nat
  | [] => some 0
  | c :: cs => do
    let i ← progressUpdate c
    let n ← progressTotal cs
    pure (i + n)

/-! ## Agent responses and the per-round agent loop

`ModelResponse` mirrors the response record constructed in
`prompter.py` (RandomPrompter.respond) and consumed throughout
`simulate_game.py`. -/

structure ModelResponse where
  model_name : String
  reasoning : String
  orders : List String
  messages : List (String × String)
  system_prompt : String
  user_prompt : String
  prompt_tokens : Nat
  completion_tokens : Nat
  total_tokens : Nat
  completion_time_sec : ℚ

/-- One message round's walk over the (already shuffled, already
eligibility-filtered) agents, restricted to the retreat-message check
(simulate_game.py lines 137-140): each agent's response is recorded, then
during Retreat phases a non-empty message mapping fails the assertion and
aborts before any further agent runs.  Returns the number of responses
processed and whether the round aborted. -/
def runRound (phase_type : Char) : List ModelResponse → Nat × Bool
  | [] => (0, false)
  | r :: rs =>
    if phase_type = 'R' ∧ r.messages ≠ [] then (1, true)
    else
      let p := runRound phase_type rs
      (p.1 + 1, p.2)

/-! ## End-of-phase metrics aggregation (simulate_game.py lines 237-249)

`valid_order_total_avg` falls back to 1.0 when no orders were proposed;
`messages/num_avg` divides by `count_completions_one_round` with no
guard, so a round with zero completions raises `ZeroDivisionError`,
modelled as `none`. -/

structure PhaseMetrics where
  orders_num_total : Nat
  orders_num_valid : Nat
  valid_ratio_total_avg : ℚ
  messages_num_total : Nat
  messages_num_avg : ℚ

def aggregateMetrics (total_num_orders total_num_valid_orders
    total_message_sent count_completions_one_round : Nat) :
    Option PhaseMetrics :=
  let valid_order_total_avg : ℚ :=
    if total_num_orders > 0 then
      (total_num_valid_orders : ℚ) / (total_num_orders : ℚ)
    else 1
  if count_completions_one_round = 0 then none
  else
    some { orders_num_total := total_num_orders,
           orders_num_valid := total_num_valid_orders,
           valid_ratio_total_avg := valid_order_total_avg,
           messages_num_total := total_message_sent,
           messages_num_avg :=
             (total_message_sent : ℚ) / (count_completions_one_round : ℚ) }

/-! ## The decision-making call (simulate_game.py lines 122-129,
prompter.py signatures)

Python binds positional arguments one-to-one; for a signature with no
defaults and no varargs, a call with a different number of positional
arguments raises `TypeError` (modelled as `none`). -/

/-- Parameter names of `Prompter.respond` after `self` (prompter.py);
`RandomPrompter.respond` and `OpenAIChatPrompter.respond` declare the
same five. -/
def respondParams : List String :=
  ["power", "game", "possible_orders", "max_message_rounds",
   "final_game_year"]

/-- The positional arguments the orchestrator passes in
`prompter.respond(...)` (simulate_game.py lines 122-129). -/
def respondCallArgs : List String :=
  ["power", "game", "possible_orders", "message_round",
   "args.max_message_rounds", "args.max_years + 1900"]

def bindPositional (params args : List String) :
    Option (List (String × String)) :=
  if params.length = args.length then some (params.zip args) else none

/-! ## RandomPrompter.respond (prompter.py lines 37-98)

The game engine is embedded as the data `RandomPrompter.respond` reads
from it; `random.choice` / `random.randint` are embedded through an
oracle `rand : Nat → Nat` indexed by the number of random draws made so
far (`random.choice(l)` on an empty `l` raises `IndexError`, modelled as
`none`). -/

structure GameView where
  powers : List String
  orderable_locations : List String
  phase_str : String
  current_phase : String
  welfare : Bool

/-- Python `list.sort()` on strings: stable ascending sort. -/
def pySort (l : List String) : List String :=
  l.mergeSort (fun a b => decide (a ≤ b))

/-- Python `random.choice(l)` with draw `pick`. -/
def pyRandomChoice (pick : Nat) (l : List α) : Option α :=
  l[pick % l.length]?

/-- The order-sampling loop of `RandomPrompter.respond`: for each
orderable location with a non-empty legal list, sort it, then either
randomly waive (disbandable unit in a welfare adjustment phase) or draw a
random order (the debug `print(random.choice(range(100)))` consumes one
extra draw first).  `possible_orders[loc]` on a missing key raises
`KeyError` (`none`).  Returns the orders and the next draw index. -/
def randomOrders (possible_orders : List (String × List String))
    (phase_str : String) (welfare : Bool) (rand : Nat → Nat) :
    List String → Nat → Option (List String × Nat)
  | [], k => some ([], k)
  | loc :: locs, k =>
    match possible_orders.lookup loc with
    | none => none
    | some acts =>
      if acts.isEmpty then
        randomOrders possible_orders phase_str welfare rand locs k
      else
        let sorted := pySort acts
        let first := sorted.headD ""
        if containsStr phase_str "ADJUSTMENTS" &&
            containsStr (pyLastTwo first) " D" && welfare then
          match pyRandomChoice (rand k) ["WAIVE", first] with
          | none => none
          | some o =>
            (randomOrders possible_orders phase_str welfare rand locs
                (k + 1)).map (fun p => (o :: p.1, p.2))
        else
          match pyRandomChoice (rand (k + 1)) sorted with
          | none => none
          | some o =>
            (randomOrders possible_orders phase_str welfare rand locs
                (k + 2)).map (fun p => (o :: p.1, p.2))

/-- The method `RandomPrompter.respond`.  Here `system_prompt` and `user_prompt` stand for
the results of the external `constants.get_system_prompt(power, game,
max_message_rounds, final_game_year)` and `constants.get_user_prompt`
calls, and `sleep_time` for the wandb-dependent sleep duration. -/
def randomPrompterRespond (g : GameView) (power_name : String)
    (possible_orders : List (String × List String)) (rand : Nat → Nat)
    (max_message_rounds final_game_year : Nat)
    (system_prompt user_prompt : String) (sleep_time : ℚ) :
    Option ModelResponse := do
  let (power_orders, k) ←
    randomOrders possible_orders g.phase_str g.welfare rand
      g.orderable_locations 0
  let other_powers := g.powers.filter (fun p => p ≠ power_name)
  let recipient ← pyRandomChoice (rand k) other_powers
  let rn := rand (k + 1) % 101
  let message := "Hello " ++ recipient ++ "! I\x27m " ++ power_name ++
    " contacting you on turn " ++ g.current_phase ++
    ". Here\x27s a random number: " ++ toString rn ++ "."
  pure { model_name := "RandomPrompter",
         reasoning := "Randomly generated orders and messages.",
         orders := power_orders,
         messages := [(recipient, message)],
         system_prompt := system_prompt,
         user_prompt := user_prompt,
         prompt_tokens := 0,
         completion_tokens := 0,
         total_tokens := 0,
         completion_time_sec := sleep_time }

/-! ## Theorems: loop, rounds, progress -/

/-- Claim C2: With an operational horizon `Hop` (`early_stop_max_years > 0`)
at most the communicated horizon `Hcomm` (`max_years`), the loop completes
exactly the phases up to and including the first one whose year minus 1900
exceeds `Hop` — force-finishing there, independently of `Hcomm` — and when
no operational horizon is configured the communicated horizon is the
effective one. -/
theorem early_stop_bounds_loop (Hop Hcomm : Nat) (hpos : 0 < Hop)
    (hle : Hop ≤ Hcomm) (ys : List Int) :
    runPhases (simulationMaxYears Hop Hcomm) ys =
      ys.takeWhile (fun y => decide (y - 1900 ≤ (Hop : Int))) ++
        (ys.dropWhile (fun y => decide (y - 1900 ≤ (Hop : Int)))).take 1 ∧
    simulationMaxYears 0 Hcomm = Hcomm := by
  have heff : simulationMaxYears Hop Hcomm = Hop := by
    simp [simulationMaxYears, hpos]
  refine ⟨?_, by simp [simulationMaxYears]⟩
  rw [heff]
  exact runPhases_eq_takeWhile Hop ys

/-- Claim C4: The Message Round Controller runs exactly 1 round on Retreat
phases regardless of the configured maximum, and exactly the configured
maximum number of rounds on Movement and Adjustment phases. -/
theorem message_round_counts (max_message_rounds : Nat) :
    (messageRoundIndices max_message_rounds 'R').length = 1 ∧
    (messageRoundIndices max_message_rounds 'M').length =
      max_message_rounds ∧
    (messageRoundIndices max_message_rounds 'A').length =
      max_message_rounds := by
  simp [messageRoundIndices, numOfMessageRounds]

/-- Claim C5: Across any sequence of phase advances whose types are all
known, the progress counter gains exactly one per Movement phase and one
per Adjustment phase and nothing per Retreat phase (total = #M + #A), and
any phase type outside `{'M', 'A', 'R'}` is a fatal error. -/
theorem progress_counts_m_and_a :
    (∀ cs : List Char, (∀ c ∈ cs, c = 'M' ∨ c = 'A' ∨ c = 'R') →
      progressTotal cs = some (cs.count 'M' + cs.count 'A')) ∧
    (∀ c : Char, ¬(c = 'M' ∨ c = 'A' ∨ c = 'R') →
      progressUpdate c = none) := by
  constructor
  · intro cs hcs
    induction cs with
    | nil => simp [progressTotal]
    | cons c cs ih =>
      have hc := hcs c (by simp)
      have htail : ∀ x ∈ cs, x = 'M' ∨ x = 'A' ∨ x = 'R' := fun x hx =>
        hcs x (List.mem_cons_of_mem _ hx)
      rcases hc with rfl | rfl | rfl
      · simp [progressTotal, progressUpdate, ih htail, List.count_cons]
        omega
      · simp [progressTotal, progressUpdate, ih htail, List.count_cons]
        omega
      · simp [progressTotal, progressUpdate, ih htail, List.count_cons]
  · intro c hc
    push_neg at hc
    obtain ⟨h1, h2, h3⟩ := hc
    simp [progressUpdate, h1, h2, h3]

/-- Claim C3: During a Retreat phase the round aborts (fails the
no-messages assertion) iff some processed response has a non-empty
message mapping; when it aborts it does so immediately after the first
offender (only the all-empty prefix and the offender itself were
processed), and when every response has an empty message mapping the
whole round completes without aborting. -/
theorem retreat_nonempty_messages_abort (rs : List ModelResponse) :
    ((runRound 'R' rs).2 = true ↔ ∃ r ∈ rs, r.messages ≠ []) ∧
    ((∀ r ∈ rs, r.messages = []) → runRound 'R' rs = (rs.length, false)) ∧
    ((runRound 'R' rs).2 = true →
      (runRound 'R' rs).1 =
        (rs.takeWhile (fun r => r.messages.isEmpty)).length + 1) := by
  induction rs with
  | nil => simp [runRound]
  | cons r rs ih =>
    by_cases hr : r.messages = []
    · have hstep : runRound 'R' (r :: rs) =
          ((runRound 'R' rs).1 + 1, (runRound 'R' rs).2) := by
        simp [runRound, hr]
      have hemp : r.messages.isEmpty = true := by simp [hr]
      refine ⟨?_, ?_, ?_⟩
      · rw [hstep]
        show (runRound 'R' rs).2 = true ↔ _
        rw [ih.1]
        simp [hr]
      · intro hall
        rw [hstep, ih.2.1 (fun x hx => hall x (List.mem_cons_of_mem _ hx))]
        simp
      · intro habort
        rw [hstep] at habort
        have habort' : (runRound 'R' rs).2 = true := habort
        rw [hstep]
        show (runRound 'R' rs).1 + 1 = _
        rw [ih.2.2 habort']
        simp [List.takeWhile_cons, hemp]
    · have hstep : runRound 'R' (r :: rs) = (1, true) := by
        simp [runRound, hr]
      have hemp : r.messages.isEmpty = false := by
        simpa [List.isEmpty_iff] using hr
      refine ⟨?_, ?_, ?_⟩
      · rw [hstep]
        simp [hr]
      · intro hall
        exact absurd (hall r (List.mem_cons_self r rs)) hr
      · intro _
        rw [hstep]
        show (1 : Nat) = _
        simp [List.takeWhile_cons, hemp]

/-! ## Theorems: metrics aggregation -/

/-- Claim C6, counterexample: A phase with zero proposed actions and zero
completing (eligible) agents in its round does *not* complete metrics
aggregation with fallback values: the messages-per-agent average divides
by the round's completion count, raising `ZeroDivisionError`. -/
theorem degenerate_metrics_error :
    aggregateMetrics 0 0 0 0 = none := rfl

/-- Claim C6, amended: Zero proposed actions alone is not an error: with at
least one completing agent in the final round, aggregation completes with
validity ratio exactly 1.0 and zero counts.  But zero eligible agents in
the final round is an error: the messages-per-agent average divides by
the completion count, which is zero. -/
theorem degenerate_metrics_amended (ms cc t v ms2 : Nat) (h : 0 < cc) :
    (aggregateMetrics 0 0 ms cc).map
        (fun m =>
          (m.valid_ratio_total_avg, m.orders_num_total,
            m.orders_num_valid)) =
      some (1, 0, 0) ∧
    aggregateMetrics t v ms2 0 = none := by
  have hcc : cc ≠ 0 := by omega
  constructor
  · simp [aggregateMetrics, hcc]
  · simp [aggregateMetrics]

/-! ## Theorems: the decision-making call -/

/-- Claim C7: The orchestrator's six-positional-argument invocation of
`prompter.respond` does not match the five-parameter signature the
`Prompter` contract (and both implementations) declare: positional
binding fails, i.e. the call raises `TypeError` instead of yielding an
Agent Response. -/
theorem respond_call_arity_error :
    bindPositional respondParams respondCallArgs = none := rfl

/-! ## Theorems: RandomPrompter -/

lemma pyRandomChoice_isSome (p : Nat) (l : List α) (h : l ≠ []) :
    (pyRandomChoice p l).isSome = true := by
  have hlen : 0 < l.length := List.length_pos.mpr h
  have hm : p % l.length < l.length := Nat.mod_lt _ hlen
  simp [pyRandomChoice, List.getElem?_eq_getElem hm]

lemma pySort_ne_nil (l : List String) (h : l ≠ []) : pySort l ≠ [] := by
  have hl : (pySort l).length = l.length := List.length_mergeSort l
  intro hc
  rw [hc] at hl
  simp at hl
  exact h (List.eq_nil_of_length_eq_zero hl.symm)

lemma randomOrders_cons_nonempty
    (possible_orders : List (String × List String)) (phase_str : String)
    (welfare : Bool) (rand : Nat → Nat) (loc : String)
    (locs : List String) (k : Nat) (acts : List String)
    (hacts : possible_orders.lookup loc = some acts)
    (hne : acts.isEmpty = false) :
    randomOrders possible_orders phase_str welfare rand (loc :: locs) k =
      (if containsStr phase_str "ADJUSTMENTS" &&
          containsStr (pyLastTwo ((pySort acts).headD "")) " D" &&
          welfare then
        match pyRandomChoice (rand k) ["WAIVE", (pySort acts).headD ""]
          with
        | none => none
        | some o =>
          (randomOrders possible_orders phase_str welfare rand locs
              (k + 1)).map (fun p => (o :: p.1, p.2))
      else
        match pyRandomChoice (rand (k + 1)) (pySort acts) with
        | none => none
        | some o =>
          (randomOrders possible_orders phase_str welfare rand locs
              (k + 2)).map (fun p => (o :: p.1, p.2))) := by
  simp [randomOrders, hacts, hne]

lemma randomOrders_isSome (possible_orders : List (String × List String))
    (phase_str : String) (welfare : Bool) (rand : Nat → Nat)
    (locs : List String)
    (h : ∀ loc ∈ locs, (possible_orders.lookup loc).isSome = true) :
    ∀ k, (randomOrders possible_orders phase_str welfare rand
      locs k).isSome = true := by
  induction locs with
  | nil => intro k; simp [randomOrders]
  | cons loc locs ih =>
    intro k
    obtain ⟨acts, hacts⟩ :=
      Option.isSome_iff_exists.mp (h loc (List.mem_cons_self loc locs))
    have htail := fun x hx => h x (List.mem_cons_of_mem _ hx)
    by_cases he : acts.isEmpty
    · simp [randomOrders, hacts, he, ih htail k]
    · have he' : acts.isEmpty = false := by simpa using he
      have hne : acts ≠ [] := by
        simpa [List.isEmpty_iff] using he
      have hsort : pySort acts ≠ [] := pySort_ne_nil acts hne
      obtain ⟨o1, ho1⟩ := Option.isSome_iff_exists.mp
        (pyRandomChoice_isSome (rand k)
          ["WAIVE", (pySort acts).headD ""] (by simp))
      obtain ⟨o2, ho2⟩ := Option.isSome_iff_exists.mp
        (pyRandomChoice_isSome (rand (k + 1)) (pySort acts) hsort)
      obtain ⟨p1, hp1⟩ := Option.isSome_iff_exists.mp (ih htail (k + 1))
      obtain ⟨p2, hp2⟩ := Option.isSome_iff_exists.mp (ih htail (k + 2))
      rw [randomOrders_cons_nonempty possible_orders phase_str welfare
        rand loc locs k acts hacts he']
      by_cases hcond : (containsStr phase_str "ADJUSTMENTS" &&
          containsStr (pyLastTwo ((pySort acts).headD "")) " D" &&
          welfare) = true
      · rw [if_pos hcond, ho1]
        simp [hp1]
      · rw [if_neg hcond, ho2]
        simp [hp2]

/-- Claim C10: Whenever `RandomPrompter.respond` is called on a game with at
least one other power (so at least two powers) and a legality set
covering the orderable locations, it returns a response whose message
mapping has exactly one entry — regardless of the phase, including
Retreat phases where the orchestrator demands an empty mapping. -/
theorem random_prompter_single_message (g : GameView)
    (power_name : String) (L : List (String × List String))
    (rand : Nat → Nat) (mmr fgy : Nat) (sp up : String) (st : ℚ)
    (hkeys : ∀ loc ∈ g.orderable_locations, (L.lookup loc).isSome = true)
    (hpow : ∃ p ∈ g.powers, p ≠ power_name) :
    (randomPrompterRespond g power_name L rand mmr fgy sp up st).map
        (fun r => r.messages.length) = some 1 := by
  obtain ⟨⟨os, k⟩, hro⟩ := Option.isSome_iff_exists.mp
    (randomOrders_isSome L g.phase_str g.welfare rand
      g.orderable_locations hkeys 0)
  have hop : g.powers.filter (fun p => p ≠ power_name) ≠ [] := by
    obtain ⟨p, hp, hne⟩ := hpow
    exact List.ne_nil_of_mem (List.mem_filter.mpr ⟨hp, by simpa using hne⟩)
  obtain ⟨rcp, hrcp⟩ := Option.isSome_iff_exists.mp
    (pyRandomChoice_isSome (rand k) _ hop)
  unfold randomPrompterRespond
  rw [hro]
  simp only [ne_eq, decide_not] at hrcp
  simp [hrcp]

/-! ## Concrete witnesses -/

/-- A response record with the given messages; every other field as
`RandomPrompter` would fill it. -/
def mkResponse (msgs : List (String × String)) : ModelResponse :=
  { model_name := "RandomPrompter",
    reasoning := "",
    orders := [],
    messages := msgs,
    system_prompt := "",
    user_prompt := "",
    prompt_tokens := 0,
    completion_tokens := 0,
    total_tokens := 0,
    completion_time_sec := 0 }

def retreatRoundOffender : List ModelResponse :=
  [mkResponse [], mkResponse [("FRANCE", "hello")], mkResponse []]

def retreatRoundClean : List ModelResponse :=
  [mkResponse [], mkResponse []]

/-- Witness for C3: with an offender in second position the retreat round
aborts having processed exactly 2 responses; with all mappings empty both
responses are processed and no abort occurs. -/
theorem retreat_nonempty_messages_abort_witness :
    (runRound 'R' retreatRoundOffender).1 =
      ((retreatRoundOffender.takeWhile
        (fun r => r.messages.isEmpty)).length + 1) ∧
    runRound 'R' retreatRoundClean = (retreatRoundClean.length, false) :=
  ⟨(retreat_nonempty_messages_abort retreatRoundOffender).2.2 (by decide),
   (retreat_nonempty_messages_abort retreatRoundClean).2.1 (by decide)⟩

/-- Witness for the amended C6 at one completing agent (zero orders
aggregate fine) and at zero completing agents (aggregation fails). -/
theorem degenerate_metrics_amended_witness :
    0 < 1 ∧
    ((aggregateMetrics 0 0 0 1).map
        (fun m =>
          (m.valid_ratio_total_avg, m.orders_num_total,
            m.orders_num_valid)) =
      some (1, 0, 0) ∧
    aggregateMetrics 5 3 2 0 = none) :=
  ⟨by decide, degenerate_metrics_amended 0 1 5 3 2 (by decide)⟩

def retreatView : GameView :=
  { powers := ["AUSTRIA", "ENGLAND"],
    orderable_locations := [],
    phase_str := "WINTER 1901 RETREATS",
    current_phase := "W1901R",
    welfare := true }

/-- Witness for C10 on a two-power Retreat-phase view: the returned
response carries exactly one message entry even though the orchestrator
forbids messages during retreats. -/
theorem random_prompter_single_message_witness :
    ("ENGLAND" ∈ retreatView.powers ∧ "ENGLAND" ≠ "AUSTRIA") ∧
    (randomPrompterRespond retreatView "AUSTRIA" [] (fun _ => 0) 3 1910
        "" "" 0).map (fun r => r.messages.length) = some 1 :=
  ⟨⟨by decide, by decide⟩,
   random_prompter_single_message retreatView "AUSTRIA" [] (fun _ => 0)
     3 1910 "" "" 0 (by decide) ⟨"ENGLAND", by decide, by decide⟩⟩

/-- Witness for C2 at `Hop = 1`, `Hcomm = 3`,
years `[1901, 1902, 1903]`: the loop completes 1901 and 1902 (the first
crossing) and never reaches 1903, although `Hcomm` would allow it. -/
theorem early_stop_bounds_loop_witness :
    ((0 < 1 ∧ 1 ≤ 3) ∧
      (runPhases (simulationMaxYears 1 3) [1901, 1902, 1903] =
        ([1901, 1902, 1903] : List Int).takeWhile
            (fun y => decide (y - 1900 ≤ (1 : Int))) ++
          (([1901, 1902, 1903] : List Int).dropWhile
            (fun y => decide (y - 1900 ≤ (1 : Int)))).take 1 ∧
        simulationMaxYears 0 3 = 3)) :=
  ⟨⟨by decide, by decide⟩,
    early_stop_bounds_loop 1 3 (by decide) (by decide) [1901, 1902, 1903]⟩

/-- Witness for C5 at the phase-type sequence `M, R, A, M`: total progress
is 3 (two Movements, one Adjustment, Retreat not counted), and `'W'` is a
fatal phase type. -/
theorem progress_counts_m_and_a_witness :
    progressTotal ['M', 'R', 'A', 'M'] = some 3 ∧
    progressUpdate 'W' = none :=
  ⟨by
    have h := progress_counts_m_and_a.1 ['M', 'R', 'A', 'M'] (by decide)
    simpa using h,
   progress_counts_m_and_a.2 'W' (by decide)⟩

end WelfareDiplomacy
